import Mathlib

/-!
Verification development for the single-file quiz application `app.py`
(a Streamlit question-bank drill app).  The Python source is shallowly
embedded below: pure helpers become Lean functions on `String` / `List Char`,
the Streamlit session state becomes an explicit `Session` record threaded
through handler functions, and the JSON bank loader becomes a function on an
abstract directory listing.  Python strings are modelled as Lean strings
(sequences of Unicode code points, matching `len`/indexing on `str`).
-/

namespace Quiz

/-- Whitespace as matched by Python's `str.strip()` and the regex class `\s`
on `str` patterns: ASCII whitespace plus the Unicode space characters.
(The two Python notions coincide on every character below; exotic control
characters outside this list play no role in the program's data.) -/
def pyIsSpace (c : Char) : Bool :=
  c = ' ' ∨ c = '\t' ∨ c = '\n' ∨ c = '\r' ∨ c = '\u000B' ∨ c = '\u000C' ∨
  c = '\u001C' ∨ c = '\u001D' ∨ c = '\u001E' ∨ c = '\u001F' ∨ c = '\u0085' ∨
  c = '\u00A0' ∨ c = '\u1680' ∨ c = '\u2000' ∨ c = '\u2001' ∨ c = '\u2002' ∨
  c = '\u2003' ∨ c = '\u2004' ∨ c = '\u2005' ∨ c = '\u2006' ∨ c = '\u2007' ∨
  c = '\u2008' ∨ c = '\u2009' ∨ c = '\u200A' ∨ c = '\u2028' ∨ c = '\u2029' ∨
  c = '\u202F' ∨ c = '\u205F' ∨ c = '\u3000'

/-- Python `s.strip()`: drop leading and trailing whitespace. -/
def pyStrip (s : String) : String :=
  (((s.toList.dropWhile pyIsSpace).reverse.dropWhile pyIsSpace).reverse).asString

/-- The character-level effect of the replacement chain in `normalize_text`
(app.py lines 91-92): `；`→`;`, `，`→`,`, `。` deleted, `（`→`(`, `）`→`)`.
The sequential `str.replace` calls equal one pass because no replacement
output is itself replaced later. -/
def normChar (c : Char) : Option Char :=
  if c = '；' then some ';'
  else if c = '，' then some ','
  else if c = '。' then none
  else if c = '（' then some '('
  else if c = '）' then some ')'
  else some c

/-- `normalize_text` (app.py lines 88-93): strip, delete all whitespace
(`re.sub(r"\s+", "", s)`), then the punctuation replacements. -/
def normalize_text (s : String) : String :=
  ((((pyStrip s).toList.filter (fun c => !pyIsSpace c)).filterMap normChar)).asString

/-- The delimiter class `[;,\s，、]` used by `re.split` in both the
multi-choice fallback (app.py line 333) and `grade_subjective` (line 110). -/
def isDelim (c : Char) : Bool :=
  c = ';' ∨ c = ',' ∨ pyIsSpace c ∨ c = '，' ∨ c = '、'

/-- Maximal runs of characters not satisfying `p`, with empty runs kept at
delimiter positions; `re.split(r"[X]+", s)` followed by discarding empty
pieces equals `splitRuns` followed by discarding empty runs. -/
def splitRuns (p : Char → Bool) (s : List Char) : List (List Char) :=
  s.foldr
    (fun c acc =>
      if p c then [] :: acc
      else
        match acc with
        | [] => [[c]]
        | r :: rs => (c :: r) :: rs)
    []

/-- `[p.strip() for p in re.split(r"[;,\s，、]+", a) if p.strip()]`
(app.py lines 110 and 333; runs contain no whitespace, so the strip inside
the comprehension is kept for fidelity but acts as the identity). -/
def splitAnswerParts (a : String) : List String :=
  (((splitRuns isDelim a.toList).map (fun p => pyStrip p.asString)).filter
    (fun p => p ≠ ""))

/-- Python `needle in hay` on strings: contiguous substring test. -/
def strContains (hay needle : String) : Bool :=
  decide (needle.toList <:+: hay.toList)

/-- `grade_subjective` (app.py lines 96-116).  `none` models Python `None`
(ungraded).  The threshold `hit / len(parts) >= 0.8` is on Python floats;
for fragment counts below 2^50 the float comparison coincides with the
rational one, which is rendered here as `5 * hit ≥ 4 * parts.length`. -/
def grade_subjective (user answer : String) : Option Bool :=
  if answer = "" ∨ strContains answer "暂无" then none
  else
    let u := normalize_text user
    let a := normalize_text answer
    if u = "" then some false
    else if u = a then some true
    else
      let parts := (splitAnswerParts answer).filter
        (fun p => p.length ≥ 2 ∧ !strContains p "暂无")
      let hit := (parts.filter (fun p => strContains u (normalize_text p))).length
      if parts ≠ [] ∧ 5 * hit ≥ 4 * parts.length then some true
      else some false

/-- The shape of a record's `answer` field as the submit handler inspects it:
absent/`None`, a string, or a list of strings (the shapes occurring in the
question-bank JSON). -/
inductive AnsVal where
  | nothing
  | str (s : String)
  | listStr (l : List String)
deriving DecidableEq, Repr

/-- Python `set(xs) == set(ys)` for lists of strings: mutual membership. -/
def listSetEq (xs ys : List String) : Bool :=
  xs.all (fun x => ys.contains x) && ys.all (fun y => xs.contains y)

/-- The 单选题 (single-choice) grading step of the submit handler after the
empty-selection guard (app.py lines 318-321):
`correct = (user_answer == answer)` when `answer` is a string with nonblank
strip, else `correct = None`. -/
def gradeSingle (user : String) (answer : AnsVal) : Option Bool :=
  match answer with
  | .str a => if pyStrip a ≠ "" then some (user = a) else none
  | _ => none

/-- The 多选题 (multi-choice) grading step of the submit handler after the
empty-selection guard (app.py lines 328-336): a stored list is compared by
`set(user_answer) == set(answer)`; a nonblank stored string is split on the
delimiter class and compared as sets; otherwise `None`. -/
def gradeMulti (user : List String) (answer : AnsVal) : Option Bool :=
  match answer with
  | .listStr l => some (listSetEq user l)
  | .str a =>
      if pyStrip a ≠ "" then some (listSetEq user (splitAnswerParts a))
      else none
  | .nothing => none

/-- Python `repr` of a list of strings, as produced by `str(answer)` when the
`answer` field is a list (only reachable for free-text questions whose bank
record carries a list; quote-escaping inside elements is not modelled since
no theorem depends on it). -/
def pyReprList (l : List String) : String :=
  "[" ++ String.intercalate ", " (l.map (fun s => "'" ++ s ++ "'")) ++ "]"

/-- `str(answer) if answer is not None else ""` (app.py line 339). -/
def pyAnsStr (answer : AnsVal) : String :=
  match answer with
  | .nothing => ""
  | .str s => s
  | .listStr l => pyReprList l

end Quiz

namespace Quiz

/-- One progress slot, as stored by `save_state` (app.py lines 133-139): the
code always writes the full four-field dictionary, so a slot is modelled as a
record.  `last_is_correct : Option Bool` renders the Python tri-state
`True | False | None` (`none` = ungraded). -/
structure ProgressState where
  current_index : Nat
  score : Nat
  submitted : Bool
  last_is_correct : Option Bool
deriving DecidableEq, Repr

/-- The Streamlit session state that the handlers read and write: the four
live fields, the per-signature `progress_map`, and `active_state_key`.
The map is a total function to `Option ProgressState` (Python dict `get`). -/
structure Session where
  current_index : Nat
  score : Nat
  submitted : Bool
  last_is_correct : Option Bool
  progress_map : String → Option ProgressState
  active_state_key : Option String

/-- Python `d[k] = v` on the progress map. -/
def mapSet (m : String → Option ProgressState) (k : String) (v : ProgressState) :
    String → Option ProgressState :=
  fun k' => if k' = k then some v else m k'

/-- `save_state` (app.py lines 133-139): store the live fields under `k`. -/
def save_state (k : String) (s : Session) : Session :=
  let entry : ProgressState :=
    ⟨s.current_index, s.score, s.submitted, s.last_is_correct⟩
  { s with progress_map := mapSet s.progress_map k entry }

/-- `load_state` (app.py lines 142-153): `progress_map.get(k)`; a missing (or
falsy) entry resets the live fields to `0, 0, False, None`, an existing entry
is copied into them (stored entries are always full four-field dictionaries,
so the `.get` defaults inside the else-branch never fire). -/
def load_state (k : String) (s : Session) : Session :=
  match s.progress_map k with
  | none =>
      { s with current_index := 0, score := 0, submitted := false,
               last_is_correct := none }
  | some d =>
      { s with current_index := d.current_index, score := d.score,
               submitted := d.submitted, last_is_correct := d.last_is_correct }

/-- The filter-switch block (app.py lines 200-204): when the freshly derived
`state_key` differs from `active_state_key`, save the old signature's live
fields (if there was one), load the new signature's slot, and activate it. -/
def onSelectFilter (state_key : String) (s : Session) : Session :=
  if s.active_state_key = some state_key then s
  else
    let s1 := match s.active_state_key with
      | some old => save_state old s
      | none => s
    let s2 := load_state state_key s1
    { s2 with active_state_key := some state_key }

/-- The sidebar reset button (app.py lines 211-217): overwrite the slot of
`state_key` with the fresh dictionary, `load_state` it, re-activate. -/
def sidebarReset (state_key : String) (s : Session) : Session :=
  let fresh : ProgressState := ⟨0, 0, false, none⟩
  let s1 := { s with progress_map := mapSet s.progress_map state_key fresh }
  let s2 := load_state state_key s1
  { s2 with active_state_key := some state_key }

/-- The finish-page restart button (app.py lines 239-245): zero the live
fields, then `save_state(state_key)`. -/
def finishRestart (state_key : String) (s : Session) : Session :=
  save_state state_key
    { s with current_index := 0, score := 0, submitted := false,
             last_is_correct := none }

/-- The next-question button (app.py lines 379-384): increment the position,
clear `submitted` and `last_is_correct`, then `save_state(state_key)`. -/
def onAdvance (state_key : String) (s : Session) : Session :=
  save_state state_key
    { s with current_index := s.current_index + 1, submitted := false,
             last_is_correct := none }

/-- What the input widget for the current question hands the submit handler
(app.py lines 278-304): the 单选题 radio yields `None` or a selected string,
the 多选题 multiselect yields a list, every other type a text string. -/
inductive UserInput where
  | radio (sel : Option String)
  | multisel (sels : List String)
  | text (t : String)
deriving DecidableEq, Repr

/-- The grading phase of the submit button handler (app.py lines 312-339):
the outer `Option` is `none` when the handler `st.stop()`s before grading
(single-choice with no selection, multi-choice with zero selections), and
`some correct` when a grade — possibly the ungraded `None`, rendered as the
inner `none` — is reached.  A widget/qtype mismatch cannot occur (the widget
is chosen from `qtype`, app.py lines 278-304); those branches also stop. -/
def gradeOf (qtype : String) (user : UserInput) (answer : AnsVal) :
    Option (Option Bool) :=
  if qtype = "单选题" then
    match user with
    | .radio none => none
    | .radio (some u) => some (gradeSingle u answer)
    | _ => none
  else if qtype = "多选题" then
    match user with
    | .multisel [] => none
    | .multisel l => some (gradeMulti l answer)
    | _ => none
  else
    match user with
    | .text t => some (grade_subjective t (pyAnsStr answer))
    | _ => none

/-- The submit button handler (app.py lines 310-348): when grading is not
stopped, set `submitted`, record the grade in `last_is_correct`, increment
the score exactly when the grade is `True`, and `save_state(state_key)`. -/
def onSubmit (qtype : String) (user : UserInput) (answer : AnsVal)
    (state_key : String) (s : Session) : Option Session :=
  (gradeOf qtype user answer).map (fun correct =>
    save_state state_key
      { s with submitted := true, last_is_correct := correct,
               score := if correct = some true then s.score + 1 else s.score })

end Quiz

namespace Quiz

/-- JSON values as `json.loads` yields them (numbers collapsed to `Int`;
the distinction between ints and floats plays no role in the loader). -/
inductive Json where
  | null
  | bool (b : Bool)
  | num (n : Int)
  | str (s : String)
  | arr (items : List Json)
  | obj (fields : List (String × Json))
deriving Repr

/-- A loaded question record: a Python dict, rendered as its key/value list
in insertion order. -/
abbrev QRecord : Type := List (String × Json)

/-- `it.setdefault("_source", f.name)` (app.py line 37): add the source tag
only when the key is absent (Python appends new keys at the end). -/
def setdefaultSource (name : String) (d : QRecord) : QRecord :=
  if (List.lookup "_source" d).isSome then d else d ++ [("_source", Json.str name)]

/-- The per-document record extraction of the loader's try-branch
(app.py lines 31-38): a document that is not a list is skipped (`continue`),
a list contributes its dict elements tagged with the source file name
(non-dict elements are skipped by the `isinstance(it, dict)` test). -/
def recordsOfDoc (name : String) (j : Json) : List QRecord :=
  match j with
  | .arr items =>
      items.filterMap (fun it =>
        match it with
        | .obj d => some (setdefaultSource name d)
        | _ => none)
  | _ => []

/-- The synthetic diagnostic record appended by the except-branch for an
unparseable file (app.py lines 41-50). -/
def errorRecord (name : String) : QRecord :=
  [("course", Json.str "题库错误"),
   ("chapter", Json.str "请检查 JSON"),
   ("qtype", Json.str "单选题"),
   ("question", Json.str ("题库文件 " ++ name ++ " 无法解析（JSON 格式错误）。")),
   ("options", Json.arr [Json.str "请修复该 JSON 文件后重试。"]),
   ("answer", Json.str "请修复该 JSON 文件后重试。"),
   ("explanation", Json.str "请检查逗号、引号、括号是否完整；确保整个文件是一个 list[dict]。"),
   ("_source", Json.str name)]

/-- A file of the bank directory: its name and the outcome of
`json.loads(f.read_text(...))` — `none` when reading or parsing raises
(the whole per-file try-block fails before any record is appended). -/
structure QFile where
  name : String
  parsed : Option Json

/-- One iteration of the loader's for-loop (app.py lines 29-50): an
unparseable file contributes exactly its diagnostic record, a parsed one its
extracted records. -/
def processFile (f : QFile) : List QRecord :=
  match f.parsed with
  | none => [errorRecord f.name]
  | some j => recordsOfDoc f.name j

/-- The loader's accumulation over the (sorted) file list: `all_q` grows by
each file's contribution in order. -/
def processFiles : List QFile → List QRecord
  | [] => []
  | f :: fs => processFile f ++ processFiles fs

/-- `load_quiz_data` (app.py lines 18-52) over an abstract view of the
filesystem: `none` models an absent `data/` directory, `some files` the
sorted `quiz_*.json` listing of an existing one.  (With the directory absent,
`glob` yields nothing and the `data_dir.exists()` check raises first.)
`Except.error` carries the `FileNotFoundError` message text. -/
def load_quiz_data (dataDir : Option (List QFile)) : Except String (List QRecord) :=
  match dataDir with
  | none =>
      .error "未找到 data/ 文件夹。请在仓库根目录创建 data/ 并上传 quiz_*.json 题库文件。"
  | some files =>
      if files.isEmpty then
        .error "data/ 下未找到 quiz_*.json 题库文件。请上传题库 JSON。"
      else
        .ok (processFiles files)

end Quiz

namespace Quiz

/-!
Spec-side formalizations.  Each `...Claim...` definition renders the exact
wording of a spec claim about the grading / loading functions, to be compared
with the embedding of the source; each `...Amended...` definition renders the
corrected wording where the source deviates.
-/

/-- The spec's single-choice grading contract as claimed: ungraded when the
stored answer is empty (trims to nothing) or absent/not a string; otherwise
correct iff the trimmed user selection equals the trimmed stored answer. -/
def singleGradeClaimed (user : String) (answer : AnsVal) : Option Bool :=
  match answer with
  | .str a => if pyStrip a = "" then none else some (pyStrip user = pyStrip a)
  | _ => none

/-- The amended single-choice contract: ungraded when the stored answer is
absent, not a string, or trims to nothing; otherwise correct iff the user
selection equals the stored answer by exact raw string equality (the handler
performs no trimming before comparing). -/
def singleGradeAmended (user : String) (answer : AnsVal) : Option Bool :=
  match answer with
  | .str a => if pyStrip a = "" then none else some (user = a)
  | _ => none

/-- The spec's multi-choice grading contract as claimed: ungraded when the
stored answer is empty (absent, blank string, or empty list); otherwise
correct iff the set of normalized user selections equals the set of
normalized stored answers, a stored string being first split into a set on
the delimiters. -/
def multiGradeClaimed (user : List String) (answer : AnsVal) : Option Bool :=
  match answer with
  | .nothing => none
  | .str a =>
      if pyStrip a = "" then none
      else some (listSetEq (user.map normalize_text)
        ((splitAnswerParts a).map normalize_text))
  | .listStr l =>
      if l = [] then none
      else some (listSetEq (user.map normalize_text) (l.map normalize_text))

/-- The amended multi-choice contract: ungraded only when the stored answer
is absent or a blank string; a stored list — the empty list included — is
compared by raw set equality against the selections, and a stored non-blank
string is split on the delimiters and its trimmed fragments compared by raw
set equality; no normalization is applied on either side. -/
def multiGradeAmended (user : List String) (answer : AnsVal) : Option Bool :=
  match answer with
  | .nothing => none
  | .str a =>
      if pyStrip a = "" then none
      else some (listSetEq user (splitAnswerParts a))
  | .listStr l => some (listSetEq user l)

/-- The spec's free-text grading contract, in the claim's order: ungraded
when the stored answer is empty or marked `暂无`; an (after normalization)
empty submission is incorrect; correct on normalized equality, or when at
least 80% of the keyword fragments (length ≥ 2, placeholder fragments
discarded) of the stored answer occur, normalized, inside the normalized
user text; incorrect otherwise. -/
def subjectiveClaimed (user answer : String) : Option Bool :=
  if answer = "" ∨ strContains answer "暂无" then none
  else if normalize_text user = "" then some false
  else if normalize_text user = normalize_text answer then some true
  else
    let frags := (splitAnswerParts answer).filter
      (fun p => p.length ≥ 2 ∧ !strContains p "暂无")
    let hits := (frags.filter
      (fun p => strContains (normalize_text user) (normalize_text p))).length
    if frags ≠ [] ∧ 5 * hits ≥ 4 * frags.length then some true else some false

/-- The spec's claimed per-document loading: a list document contributes its
dict records; a single object with a `data` field is unwrapped so that the
records of its `data` list are loaded. -/
def recordsOfDocClaimed (name : String) (j : Json) : List QRecord :=
  match j with
  | .arr items =>
      items.filterMap (fun it =>
        match it with
        | .obj d => some (setdefaultSource name d)
        | _ => none)
  | .obj fields =>
      match List.lookup "data" fields with
      | some (.arr items) =>
          items.filterMap (fun it =>
            match it with
            | .obj d => some (setdefaultSource name d)
            | _ => none)
      | _ => []
  | _ => []

/-- `Except.error`-ness of a load result. -/
def isLoadError : Except String (List QRecord) → Bool
  | .error _ => true
  | .ok _ => false

end Quiz

namespace Quiz

/-- C2 counterexample: with stored answer `" A"` (trims to `"A"`) and user
selection `"A"`, the claimed trim-then-compare contract yields correct, but
the submit handler compares the raw strings and yields incorrect. -/
theorem C2_counterexample :
    gradeSingle "A" (AnsVal.str " A") = some false ∧
    singleGradeClaimed "A" (AnsVal.str " A") = some true := by
  constructor <;> decide

/-- C2 (amended): single-choice grading is ungraded when the stored answer
is absent, not a string, or trims to nothing; otherwise it is correct iff
the user selection equals the stored answer by exact raw string equality
(no trimming); in particular `grade("single","A","A")` is correct and
`grade("single","B","A")` is incorrect. -/
theorem C2_single_grade_amended :
    (∀ user answer, gradeSingle user answer = singleGradeAmended user answer) ∧
    gradeSingle "A" (AnsVal.str "A") = some true ∧
    gradeSingle "B" (AnsVal.str "A") = some false := by
  refine ⟨fun user answer => ?_, by decide, by decide⟩
  cases answer with
  | str a =>
      by_cases h : pyStrip a = "" <;>
        simp [gradeSingle, singleGradeAmended, h]
  | nothing => rfl
  | listStr l => rfl

/-- C3 counterexample: an empty stored list is graded (incorrect) rather
than ungraded, and a stored list whose element only trim-normalizes to the
selection is graded incorrect although the claimed normalized-set contract
declares it correct. -/
theorem C3_counterexample :
    gradeMulti ["A"] (AnsVal.listStr []) = some false ∧
    multiGradeClaimed ["A"] (AnsVal.listStr []) = none ∧
    gradeMulti ["A"] (AnsVal.listStr ["A "]) = some false ∧
    multiGradeClaimed ["A"] (AnsVal.listStr ["A "]) = some true := by
  refine ⟨by decide, by decide, by decide, by decide⟩

/-- C3 (amended): multi-choice grading is ungraded only when the stored
answer is absent or a blank string; a stored list — including the empty
list — is compared by raw set equality with the user selections, and a
stored non-blank string is split on the delimiters (semicolon, comma,
whitespace, Chinese comma, Chinese enumeration comma) into trimmed fragments
and compared by raw set equality; the comparison is order-independent, so
`grade("multiple",["A","B"],["B","A"])` is correct. -/
theorem C3_multi_grade_amended :
    (∀ user answer, gradeMulti user answer = multiGradeAmended user answer) ∧
    gradeMulti ["A", "B"] (AnsVal.listStr ["B", "A"]) = some true := by
  refine ⟨fun user answer => ?_, by decide⟩
  cases answer with
  | str a =>
      by_cases h : pyStrip a = "" <;>
        simp [gradeMulti, multiGradeAmended, h]
  | nothing => rfl
  | listStr l => rfl

/-- C4: free-text grading follows the claimed contract exactly — ungraded
when the stored answer is empty or carries the `暂无` no-answer mark;
an empty (after normalization) submission is incorrect; otherwise correct on
normalized equality or when at least 80% of the stored answer's keyword
fragments (length ≥ 2, placeholders discarded) occur in the normalized user
text, and incorrect otherwise.  For the stored answer
`肝脏;合成蛋白质;分泌胆汁`, hitting 2 of 3 fragments is incorrect and
hitting all 3 is correct. -/
theorem C4_subjective_grading :
    (∀ user answer, grade_subjective user answer = subjectiveClaimed user answer) ∧
    grade_subjective "肝脏合成蛋白质" "肝脏;合成蛋白质;分泌胆汁" = some false ∧
    grade_subjective "肝脏合成蛋白质分泌胆汁" "肝脏;合成蛋白质;分泌胆汁" = some true := by
  refine ⟨fun user answer => rfl, by decide, by decide⟩

end Quiz

namespace Quiz

/-- A single JSON object with a `data` list holding one record, as the spec
claims gets unwrapped. -/
def dataObjDoc : Json :=
  Json.obj [("data", Json.arr [Json.obj [("question", Json.str "q")]])]

/-- C5 counterexample: a document that is a single object with a `data`
field is not unwrapped by the loader — it is skipped and contributes no
records, while the claimed contract loads its `data` records. -/
theorem C5_counterexample :
    recordsOfDoc "quiz_a.json" dataObjDoc = [] ∧
    recordsOfDocClaimed "quiz_a.json" dataObjDoc =
      [[("question", Json.str "q"), ("_source", Json.str "quiz_a.json")]] ∧
    load_quiz_data (some [⟨"quiz_a.json", some dataObjDoc⟩]) = Except.ok [] := by
  exact ⟨rfl, rfl, rfl⟩

/-- C5 (amended): the loader parses each document as a list of records,
loading the dict elements of a list document; a document that is not a list
— a single object with a `data` field included — is skipped and contributes
no records. -/
theorem C5_loader_amended :
    (∀ name fields, recordsOfDoc name (Json.obj fields) = []) ∧
    (∀ name items, recordsOfDoc name (Json.arr items) =
      items.filterMap (fun it =>
        match it with
        | Json.obj d => some (setdefaultSource name d)
        | _ => none)) ∧
    load_quiz_data (some
        [⟨"quiz_a.json", some (Json.arr [Json.obj [("question", Json.str "q1")]])⟩,
         ⟨"quiz_b.json", some dataObjDoc⟩]) =
      Except.ok [[("question", Json.str "q1"), ("_source", Json.str "quiz_a.json")]] := by
  exact ⟨fun name fields => rfl, fun name items => rfl, rfl⟩

/-- C6 counterexample: a directory holding one parseable file with zero
records (`[]`) loads successfully with an empty record set — the loader does
not signal a failure on zero usable records, contrary to the claim. -/
theorem C6_counterexample :
    load_quiz_data (some [⟨"quiz_empty.json", some (Json.arr [])⟩]) =
      Except.ok [] := rfl

/-- C6 (amended): loading signals a failure (with a human-readable message)
iff the bank directory is absent or contains no `quiz_*.json` files; in
every other case it returns the produced record set, which may be empty. -/
theorem C6_load_failure_amended :
    (∀ dataDir, isLoadError (load_quiz_data dataDir) = true ↔
      (dataDir = none ∨ dataDir = some [])) ∧
    (∀ files, files ≠ [] →
      load_quiz_data (some files) = Except.ok (processFiles files)) := by
  constructor
  · intro dataDir
    match dataDir with
    | none => simp [load_quiz_data, isLoadError]
    | some [] => simp [load_quiz_data, isLoadError]
    | some (f :: fs) => simp [load_quiz_data, isLoadError]
  · intro files h
    match files with
    | [] => exact absurd rfl h
    | f :: fs => rfl

/-- C6 witness. -/
theorem C6_load_failure_amended_witness :
    load_quiz_data (some [⟨"quiz_w.json", none⟩]) =
      Except.ok (processFiles [⟨"quiz_w.json", none⟩]) :=
  C6_load_failure_amended.2 _ (List.cons_ne_nil _ _)

/-- The loader's accumulation splits over list append. -/
theorem processFiles_append (xs ys : List QFile) :
    processFiles (xs ++ ys) = processFiles xs ++ processFiles ys := by
  induction xs with
  | nil => rfl
  | cons f fs ih => simp [processFiles, ih]

/-- C7: an unparseable file anywhere in the directory does not abort
loading: it contributes exactly one synthetic diagnostic record tagged with
the offending file's name, and every other file contributes its own records
unchanged; in particular one well-formed plus one malformed file load to the
well-formed records followed by the single diagnostic record. -/
theorem C7_malformed_nonabort :
    (∀ pre post name,
      load_quiz_data (some (pre ++ (⟨name, none⟩ : QFile) :: post)) =
        Except.ok (processFiles pre ++ errorRecord name :: processFiles post)) ∧
    (∀ name, List.lookup "_source" (errorRecord name) = some (Json.str name)) ∧
    load_quiz_data (some
        [⟨"quiz_good.json", some (Json.arr [Json.obj [("question", Json.str "q1")]])⟩,
         ⟨"quiz_bad.json", none⟩]) =
      Except.ok [[("question", Json.str "q1"), ("_source", Json.str "quiz_good.json")],
        errorRecord "quiz_bad.json"] := by
  refine ⟨fun pre post name => ?_, fun name => rfl, rfl⟩
  cases pre with
  | nil => simp [load_quiz_data, processFiles, processFile]
  | cons a as =>
      simp [load_quiz_data, processFiles_append, processFiles, processFile]

end Quiz

namespace Quiz

/-- A concrete mid-quiz session used by the witness instances: position 3,
score 2, feedback for an incorrect submission showing, one active key. -/
def sampleSession : Session :=
  ⟨3, 2, true, some false, fun _ => none, some "生理学::第1章::单选题"⟩

/-- C1: switching the active filter signature away and back restores the
live progress fields exactly: with F1 active, selecting F2 (which saves F1's
state into the progress map) and then selecting F1 again restores position,
score, submitted flag and last result as they were left. -/
theorem C1_switch_roundtrip (s : Session) (F1 F2 : String)
    (h1 : s.active_state_key = some F1) (hne : F1 ≠ F2) :
    (onSelectFilter F1 (onSelectFilter F2 s)).current_index = s.current_index ∧
    (onSelectFilter F1 (onSelectFilter F2 s)).score = s.score ∧
    (onSelectFilter F1 (onSelectFilter F2 s)).submitted = s.submitted ∧
    (onSelectFilter F1 (onSelectFilter F2 s)).last_is_correct = s.last_is_correct := by
  cases hF2 : s.progress_map F2 with
  | none =>
      simp [onSelectFilter, save_state, load_state, mapSet, h1, hne, Ne.symm hne, hF2]
  | some d =>
      simp [onSelectFilter, save_state, load_state, mapSet, h1, hne, Ne.symm hne, hF2]

/-- C1 witness. -/
theorem C1_switch_roundtrip_witness :
    (onSelectFilter "生理学::第1章::单选题"
        (onSelectFilter "全部::全部::全部" sampleSession)).current_index =
      sampleSession.current_index ∧
    (onSelectFilter "生理学::第1章::单选题"
        (onSelectFilter "全部::全部::全部" sampleSession)).score =
      sampleSession.score ∧
    (onSelectFilter "生理学::第1章::单选题"
        (onSelectFilter "全部::全部::全部" sampleSession)).submitted =
      sampleSession.submitted ∧
    (onSelectFilter "生理学::第1章::单选题"
        (onSelectFilter "全部::全部::全部" sampleSession)).last_is_correct =
      sampleSession.last_is_correct :=
  C1_switch_roundtrip sampleSession "生理学::第1章::单选题" "全部::全部::全部" rfl
    (by decide)

end Quiz

namespace Quiz

/-- C8: from any prior progress of the active signature — the completed
state included — both the sidebar reset button and the finish-page restart
button force the signature's state, live fields and stored slot alike, to
position 0, score 0, not submitted, ungraded. -/
theorem C8_reset_fresh (s : Session) (k : String)
    (h : s.active_state_key = some k) :
    (sidebarReset k s).current_index = 0 ∧
    (sidebarReset k s).score = 0 ∧
    (sidebarReset k s).submitted = false ∧
    (sidebarReset k s).last_is_correct = none ∧
    (sidebarReset k s).progress_map k = some ⟨0, 0, false, none⟩ ∧
    (sidebarReset k s).active_state_key = some k ∧
    (finishRestart k s).current_index = 0 ∧
    (finishRestart k s).score = 0 ∧
    (finishRestart k s).submitted = false ∧
    (finishRestart k s).last_is_correct = none ∧
    (finishRestart k s).progress_map k = some ⟨0, 0, false, none⟩ := by
  simp [sidebarReset, finishRestart, save_state, load_state, mapSet]

/-- C8 witness. -/
theorem C8_reset_fresh_witness :
    (sidebarReset "生理学::第1章::单选题" sampleSession).current_index = 0 ∧
    (sidebarReset "生理学::第1章::单选题" sampleSession).score = 0 ∧
    (sidebarReset "生理学::第1章::单选题" sampleSession).submitted = false ∧
    (sidebarReset "生理学::第1章::单选题" sampleSession).last_is_correct = none ∧
    (sidebarReset "生理学::第1章::单选题" sampleSession).progress_map
      "生理学::第1章::单选题" = some ⟨0, 0, false, none⟩ ∧
    (sidebarReset "生理学::第1章::单选题" sampleSession).active_state_key =
      some "生理学::第1章::单选题" ∧
    (finishRestart "生理学::第1章::单选题" sampleSession).current_index = 0 ∧
    (finishRestart "生理学::第1章::单选题" sampleSession).score = 0 ∧
    (finishRestart "生理学::第1章::单选题" sampleSession).submitted = false ∧
    (finishRestart "生理学::第1章::单选题" sampleSession).last_is_correct = none ∧
    (finishRestart "生理学::第1章::单选题" sampleSession).progress_map
      "生理学::第1章::单选题" = some ⟨0, 0, false, none⟩ :=
  C8_reset_fresh sampleSession "生理学::第1章::单选题" rfl

/-- C10: advancing to the next question leaves the score untouched and the
stored slot of every other filter signature untouched; it only increments
the active signature's position, clears its submitted flag and last result,
and rewrites the active slot accordingly (the slot's stored score is the
unchanged live score). -/
theorem C10_advance_frame (s : Session) (k : String)
    (h : s.active_state_key = some k) :
    (onAdvance k s).score = s.score ∧
    (onAdvance k s).active_state_key = some k ∧
    (onAdvance k s).current_index = s.current_index + 1 ∧
    (onAdvance k s).submitted = false ∧
    (onAdvance k s).last_is_correct = none ∧
    (onAdvance k s).progress_map k =
      some ⟨s.current_index + 1, s.score, false, none⟩ ∧
    (∀ k', k' ≠ k → (onAdvance k s).progress_map k' = s.progress_map k') := by
  refine ⟨rfl, h, rfl, rfl, rfl, ?_, ?_⟩
  · simp [onAdvance, save_state, mapSet]
  · intro k' hk'
    simp [onAdvance, save_state, mapSet, hk']

/-- C10 witness. -/
theorem C10_advance_frame_witness :
    (onAdvance "生理学::第1章::单选题" sampleSession).score = sampleSession.score ∧
    (onAdvance "生理学::第1章::单选题" sampleSession).progress_map
      "生理学::第1章::单选题" = some ⟨4, 2, false, none⟩ ∧
    (onAdvance "生理学::第1章::单选题" sampleSession).progress_map
      "全部::全部::全部" = sampleSession.progress_map "全部::全部::全部" :=
  ⟨(C10_advance_frame sampleSession "生理学::第1章::单选题" rfl).1,
   (C10_advance_frame sampleSession "生理学::第1章::单选题" rfl).2.2.2.2.2.1,
   (C10_advance_frame sampleSession "生理学::第1章::单选题" rfl).2.2.2.2.2.2
     "全部::全部::全部" (by decide)⟩

end Quiz

namespace Quiz

/-- With an absent (`None`) or empty-string stored answer, every branch of
the grading phase that is reached yields the ungraded grade. -/
theorem gradeOf_empty_answer (qtype : String) (user : UserInput)
    (answer : AnsVal)
    (hans : answer = AnsVal.nothing ∨ answer = AnsVal.str "") :
    gradeOf qtype user answer = none ∨ gradeOf qtype user answer = some none := by
  have h1 : ∀ u, gradeSingle u answer = none := by
    rcases hans with rfl | rfl <;> exact fun u => rfl
  have h2 : ∀ l, gradeMulti l answer = none := by
    rcases hans with rfl | rfl <;> exact fun l => rfl
  have h3 : ∀ t, grade_subjective t (pyAnsStr answer) = none := by
    rcases hans with rfl | rfl <;> exact fun t => rfl
  unfold gradeOf
  split_ifs with hq1 hq2
  · cases user with
    | radio sel =>
        cases sel with
        | none => exact Or.inl rfl
        | some u => exact Or.inr (congrArg some (h1 u))
    | multisel l => exact Or.inl rfl
    | text t => exact Or.inl rfl
  · cases user with
    | radio sel => exact Or.inl rfl
    | multisel l =>
        cases l with
        | nil => exact Or.inl rfl
        | cons a as => exact Or.inr (congrArg some (h2 (a :: as)))
    | text t => exact Or.inl rfl
  · cases user with
    | radio sel => exact Or.inl rfl
    | multisel l => exact Or.inl rfl
    | text t => exact Or.inr (congrArg some (h3 t))

/-- C9 counterexample: a multi-choice question whose stored answer is the
empty list is graded — submitting records incorrect, not ungraded. -/
theorem C9_counterexample :
    (onSubmit "多选题" (UserInput.multisel ["A"]) (AnsVal.listStr [])
        "生理学::第1章::多选题" sampleSession).map Session.last_is_correct =
      some (some false) := rfl

/-- C9 (amended): for every question type and user input, when the stored
answer is absent (`None`) or the empty string, an accepted submission
records the ungraded result and leaves the score unchanged; the one
deviation from the claim is a multi-choice stored answer that is an empty
list, which is graded and records incorrect (the score is still
unchanged). -/
theorem C9_empty_answer_ungraded :
    (∀ qtype user answer k s s',
      (answer = AnsVal.nothing ∨ answer = AnsVal.str "") →
      onSubmit qtype user answer k s = some s' →
      s'.last_is_correct = none ∧ s'.score = s.score) ∧
    (∀ sel sels k s s',
      onSubmit "多选题" (UserInput.multisel (sel :: sels)) (AnsVal.listStr []) k s =
        some s' →
      s'.last_is_correct = some false ∧ s'.score = s.score) := by
  constructor
  · intro qtype user answer k s s' hans hsub
    rcases gradeOf_empty_answer qtype user answer hans with hg | hg
    · simp [onSubmit, hg] at hsub
    · simp [onSubmit, hg] at hsub
      cases hsub
      exact ⟨rfl, rfl⟩
  · intro sel sels k s s' hsub
    have hg : gradeOf "多选题" (UserInput.multisel (sel :: sels))
        (AnsVal.listStr []) = some (some false) := rfl
    simp [onSubmit, hg] at hsub
    cases hsub
    exact ⟨rfl, rfl⟩

/-- The session produced by submitting an ungradable single-choice question
from `sampleSession`. -/
def sampleSubmitOut : Session :=
  save_state "生理学::第1章::单选题"
    { sampleSession with submitted := true, last_is_correct := none,
                         score := sampleSession.score }

/-- The session produced by submitting a multi-choice selection against an
empty stored list from `sampleSession`. -/
def sampleSubmitOut2 : Session :=
  save_state "生理学::第1章::多选题"
    { sampleSession with submitted := true, last_is_correct := some false,
                         score := sampleSession.score }

/-- C9 witness. -/
theorem C9_empty_answer_ungraded_witness :
    (sampleSubmitOut.last_is_correct = none ∧
      sampleSubmitOut.score = sampleSession.score) ∧
    (sampleSubmitOut2.last_is_correct = some false ∧
      sampleSubmitOut2.score = sampleSession.score) :=
  ⟨C9_empty_answer_ungraded.1 "单选题" (UserInput.radio (some "A")) AnsVal.nothing
      "生理学::第1章::单选题" sampleSession sampleSubmitOut (Or.inl rfl) rfl,
   C9_empty_answer_ungraded.2 "A" [] "生理学::第1章::多选题" sampleSession
      sampleSubmitOut2 rfl⟩

end Quiz
